import Mathlib

/-!
Verification of the async_dfd dataflow-pipeline engine: a shallow embedding of
`async_dfd/node/node.py`, `async_dfd/graph/graph.py`,
`async_dfd/pipeline/label_pipeline/iterable_pipeline.py` and
`async_dfd/__init__.py`, together with theorems settling the specification
claims about configuration precedence, node start validation, routing,
decorator rearrangement, retry/error conversion, the stop-token worker
lifecycle, topological sorting, and the scatter/gather aggregation logic.

Machine-level conventions of the embedding:
* Python exceptions become an explicit `PyExc` value threaded through
  `Except`;
* Python dicts become insertion-ordered association lists (`List (κ × ν)`),
  matching Python 3.7+ iteration order;
* generators become explicit state machines, including the PEP 479 rule that
  a `StopIteration` raised inside a generator frame surfaces as a
  `RuntimeError` and that calling `next` on a finished generator raises
  `StopIteration`.
-/

namespace AsyncDfd

/-- The Python exceptions that appear in the embedded code paths.
`runtimeError` stands for the PEP 479 `RuntimeError("generator raised
StopIteration")`; `retryError e` stands for tenacity's `RetryError` wrapping
the exception `e` of the last failed attempt. -/
inductive PyExc : Type where
  | stopIteration
  | runtimeError
  | valueError
  | attributeError
  | assertionError
  | keyError
  | retryError (last : PyExc)
  | other (msg : String)
  deriving DecidableEq

/-! ## Global configuration and Node constructor defaults (`__init__.py`, `Node.__init__`)

`async_dfd/__init__.py` loads `./config/async_dfd_config.json` into
`ASYNC_DFD_CONFIG`, and on `FileNotFoundError` falls back to the empty dict
`{}`.  `Node.__init__` then computes

    self.timeout    = timeout if timeout else ASYNC_DFD_CONFIG.get("timeout", None)
    self.worker_num = worker_num if worker_num else ASYNC_DFD_CONFIG.get("worker_num", 10)
    self.queue_size = queue_size if queue_size else ASYNC_DFD_CONFIG.get("queue_size", 10)

Note the conditional expression tests Python *truthiness* of the explicit
argument: both `None` and `0` are falsy and fall through to the config. -/

/-- Python truthiness of an optional integer argument: `None` and `0` are
falsy, any non-zero integer is truthy. -/
def pyTruthy : Option Nat → Bool
  | none => false
  | some 0 => false
  | some (_ + 1) => true

/-- The global config dict `ASYNC_DFD_CONFIG`: an optional entry per key.
A missing key models a key absent from the JSON file. -/
structure AsyncDfdConfig : Type where
  worker_num : Option Nat
  queue_size : Option Nat
  timeout : Option Nat
  deriving DecidableEq

/-- `__init__.py`: `try: ... json.load(f) except FileNotFoundError:
ASYNC_DFD_CONFIG = {}` — a missing config file yields the empty dict,
never an error. -/
def loadConfig : Option AsyncDfdConfig → AsyncDfdConfig
  | some c => c
  | none => ⟨none, none, none⟩

/-- `Node.__init__`: `worker_num if worker_num else ASYNC_DFD_CONFIG.get("worker_num", 10)`. -/
def effWorkerNum (arg : Option Nat) (cfg : AsyncDfdConfig) : Nat :=
  if pyTruthy arg then arg.getD 0 else cfg.worker_num.getD 10

/-- `Node.__init__`: `queue_size if queue_size else ASYNC_DFD_CONFIG.get("queue_size", 10)`. -/
def effQueueSize (arg : Option Nat) (cfg : AsyncDfdConfig) : Nat :=
  if pyTruthy arg then arg.getD 0 else cfg.queue_size.getD 10

/-- `Node.__init__`: `timeout if timeout else ASYNC_DFD_CONFIG.get("timeout", None)`. -/
def effTimeout (arg : Option Nat) (cfg : AsyncDfdConfig) : Option Nat :=
  if pyTruthy arg then arg else cfg.timeout

/-! ## Node start validation (`Node._validate_destinations`, `Node.start`) -/

/-- The part of a node's state that `start()` consults: the `no_output`
flag, the keys of `dst_nodes`, and `worker_num`. -/
structure NodeV : Type where
  no_output : Bool
  dst_nodes : List String
  worker_num : Nat
  deriving DecidableEq

/-- `Node._validate_destinations`: if `no_output` then assert
`len(dst_nodes) == 0`, else assert `len(dst_nodes) > 0`; a failed `assert`
raises `AssertionError`. -/
def validateDestinations (n : NodeV) : Except PyExc Unit :=
  if n.no_output then
    if n.dst_nodes.length = 0 then .ok () else .error .assertionError
  else
    if n.dst_nodes.length > 0 then .ok () else .error .assertionError

/-- `Node._spawn_workers`: `for i in range(self.worker_num): task =
spawn(self._func_wrapper, i)` — one worker handle per index. -/
def spawnWorkers (n : NodeV) : List Nat :=
  List.range n.worker_num

/-- `Node.start`: runs `_validate_destinations` first; only if that does not
raise does it proceed to `_setup_decorators` and `_spawn_workers`, returning
the worker handles.  A validation failure therefore happens before any
worker is spawned. -/
def nodeStart (n : NodeV) : Except PyExc (List Nat) :=
  match validateDestinations n with
  | .error e => .error e
  | .ok _ => .ok (spawnWorkers n)

/-! ## Routing (`Node._put_data`, default `criteria`) -/

/-- One destination entry of `dst_nodes`: its key and the destination
node's routing predicate `criteria(src_node, data)`; the source node is
identified by its name. -/
structure Dst (α : Type) : Type where
  name : String
  criteria : String → α → Bool

/-- The default routing predicate from `Node.__init__`:
`criteria=lambda src_node, data: True`. -/
def defaultCriteria (α : Type) : String → α → Bool :=
  fun _ _ => true

/-- `Node._put_data`: `for node in self.dst_nodes.values(): if
node.criteria(self, data): node.put(data)` — returns the names of the
destinations that receive the value, in iteration order. -/
def putData {α : Type} (srcName : String) (data : α) : List (Dst α) → List String
  | [] => []
  | d :: rest =>
      if d.criteria srcName data then d.name :: putData srcName data rest
      else putData srcName data rest

/-- Helper: the put loop delivers exactly to the destinations whose
predicate accepts the value. -/
theorem putData_eq_filter {α : Type} (srcName : String) (data : α) :
    ∀ dsts : List (Dst α),
      putData srcName data dsts =
        (dsts.filter (fun d => d.criteria srcName data)).map Dst.name := by
  intro dsts
  induction dsts with
  | nil => rfl
  | cons d rest ih =>
      by_cases h : d.criteria srcName data
      · simp [putData, h, List.filter_cons, ih]
      · simp [putData, h, List.filter_cons, ih]

/-- Helper: with the default predicate every destination accepts. -/
theorem putData_default {α : Type} (srcName : String) (data : α)
    (names : List String) :
    putData srcName data (names.map fun nm => ⟨nm, defaultCriteria α⟩) = names := by
  induction names with
  | nil => rfl
  | cons nm rest ih => simp [putData, defaultCriteria, ih]

/-- C9 counterexample: the claim says an explicitly passed constructor
argument always overrides the global configuration, but `worker_num if
worker_num else ...` treats the explicit argument `0` as falsy: with
`worker_num=0` passed and `{"worker_num": 7}` configured, the effective
worker count is 7, not 0. -/
theorem falsy_worker_num_ignored :
    effWorkerNum (some 0) ⟨some 7, none, none⟩ = 7 ∧
    effWorkerNum (some 0) ⟨some 7, none, none⟩ ≠ 0 := by
  constructor
  · rfl
  · decide

/-- C9 (amended): a truthy (non-`None`, non-zero) explicit constructor
argument overrides the global configuration value, which overrides the
built-in defaults (`worker_num` 10, `queue_size` 10, `timeout` absent);
a falsy explicit argument falls back to the configuration; absence of the
configuration file yields the empty configuration and hence the built-in
defaults, never an error. -/
theorem config_precedence_truthy :
    (∀ (k : Nat) (cfg : AsyncDfdConfig), effWorkerNum (some (k + 1)) cfg = k + 1) ∧
    (∀ (k : Nat) (cfg : AsyncDfdConfig), effQueueSize (some (k + 1)) cfg = k + 1) ∧
    (∀ (k : Nat) (cfg : AsyncDfdConfig), effTimeout (some (k + 1)) cfg = some (k + 1)) ∧
    (∀ cfg : AsyncDfdConfig, effWorkerNum none cfg = cfg.worker_num.getD 10) ∧
    (∀ cfg : AsyncDfdConfig, effQueueSize none cfg = cfg.queue_size.getD 10) ∧
    (∀ cfg : AsyncDfdConfig, effTimeout none cfg = cfg.timeout) ∧
    loadConfig none = ⟨none, none, none⟩ ∧
    effWorkerNum none (loadConfig none) = 10 ∧
    effQueueSize none (loadConfig none) = 10 ∧
    effTimeout none (loadConfig none) = none := by
  refine ⟨fun k cfg => rfl, fun k cfg => rfl, fun k cfg => rfl,
    fun cfg => rfl, fun cfg => rfl, fun cfg => rfl, rfl, rfl, rfl, rfl⟩

/-- C5: `start()` validates destination wiring first: a `no_output` node
with a destination, or a non-`no_output` node without destinations, fails
with a validation error (`AssertionError`) and no worker list is produced;
otherwise validation passes and exactly `worker_num` workers are spawned. -/
theorem node_start_validates_before_spawn (n : NodeV) :
    (n.no_output = true → n.dst_nodes ≠ [] → nodeStart n = .error .assertionError) ∧
    (n.no_output = false → n.dst_nodes = [] → nodeStart n = .error .assertionError) ∧
    ((n.no_output = true ↔ n.dst_nodes = []) →
      ∃ ts, nodeStart n = .ok ts ∧ ts.length = n.worker_num) := by
  refine ⟨?_, ?_, ?_⟩
  · intro hno hdst
    have hlen : n.dst_nodes.length ≠ 0 := by
      simpa [List.length_eq_zero] using hdst
    simp [nodeStart, validateDestinations, hno, hlen]
  · intro hno hdst
    simp [nodeStart, validateDestinations, hno, hdst]
  · intro hiff
    by_cases hno : n.no_output = true
    · have hdst : n.dst_nodes = [] := hiff.mp hno
      exact ⟨spawnWorkers n, by simp [nodeStart, validateDestinations, hno, hdst],
        by simp [spawnWorkers]⟩
    · have hdst : n.dst_nodes ≠ [] := by
        intro h
        exact hno (hiff.mpr h)
      have hlen : 0 < n.dst_nodes.length := by
        cases hd : n.dst_nodes with
        | nil => exact absurd hd hdst
        | cons a t => simp [hd]
      refine ⟨spawnWorkers n, ?_, by simp [spawnWorkers]⟩
      have hno' : n.no_output = false := by
        cases h : n.no_output with
        | false => rfl
        | true => exact absurd h hno
      simp [nodeStart, validateDestinations, hno', hlen, Nat.pos_iff_ne_zero.mp hlen]

/-- C5 witness: a node with one destination, not marked `no_output`, and
`worker_num = 3` starts with exactly 3 workers. -/
theorem node_start_validates_before_spawn_witness :
    ∃ ts, nodeStart ⟨false, ["sink"], 3⟩ = .ok ts ∧ ts.length = 3 :=
  (node_start_validates_before_spawn ⟨false, ["sink"], 3⟩).2.2 (by decide)

/-- C6: for every source node, result value and destination list, the put
stage forwards the value to exactly those destinations whose routing
predicate — evaluated with the source node and the value — returns true,
iterating every destination independently; with the default predicate every
destination accepts. -/
theorem put_data_routes_by_criteria {α : Type} (srcName : String) (data : α)
    (dsts : List (Dst α)) (names : List String) :
    putData srcName data dsts =
      (dsts.filter (fun d => d.criteria srcName data)).map Dst.name ∧
    putData srcName data (names.map fun nm => ⟨nm, defaultCriteria α⟩) = names :=
  ⟨putData_eq_filter srcName data dsts, putData_default srcName data names⟩

/-! ## Proc-decorator rearrangement (`Node._rearrange_proc_decorator`)

`_rearrange_proc_decorator` copies `proc_decorators` into `new_decorators`
(the inner `set_bottom_decorator` is defined but never called), then runs
`set_top_decorator(label_proc_decorator)` and
`set_top_decorator(skip_data_decorator)`: each checks membership in the
*original* `self.proc_decorators` (unchanged until the final reassignment),
removes the first occurrence from `new_decorators` (`list.remove`) and
appends it at the end.  `_setup_decorators` then wraps `_proc_data` in list
order, so list position is nesting depth inner-to-outer. -/

/-- A proc-decorator: the two engine decorators that are forced outermost,
or a caller-registered one identified by a number. -/
inductive ProcDec : Type where
  | label_proc_decorator
  | skip_data_decorator
  | user (id : Nat)
  deriving DecidableEq

/-- Whether a decorator is one of the two engine decorators moved to the
top of the chain. -/
def ProcDec.isSpecial : ProcDec → Bool
  | .label_proc_decorator => true
  | .skip_data_decorator => true
  | .user _ => false

/-- `set_top_decorator(decorator)`: `if decorator in self.proc_decorators:
new_decorators.remove(decorator); new_decorators.append(decorator)` — the
membership test is against the original registration list `orig`
(`self.proc_decorators` is reassigned only after both calls), the
remove/append act on the working list `nl`. -/
def setTopDecorator (orig nl : List ProcDec) (d : ProcDec) : List ProcDec :=
  if d ∈ orig then (nl.erase d) ++ [d] else nl

/-- `Node._rearrange_proc_decorator`: copy the registration list (the inner
`set_bottom_decorator` is never invoked), then `set_top_decorator` for
`label_proc_decorator` and then for `skip_data_decorator`. -/
def rearrangeProcDecorator (l : List ProcDec) : List ProcDec :=
  setTopDecorator l (setTopDecorator l l .label_proc_decorator) .skip_data_decorator

/-- The property the claim asserts of the rearranged chain: the special
decorators occupy the outermost (final) positions, i.e. the list is the
non-special decorators followed by the special ones. -/
def specialsOutermost (res : List ProcDec) : Prop :=
  res = res.filter (fun d => !(ProcDec.isSpecial d)) ++ res.filter ProcDec.isSpecial

instance (res : List ProcDec) : Decidable (specialsOutermost res) := by
  unfold specialsOutermost
  infer_instance

/-- Helper: removing the first occurrence of an element that occurs at most
once is the same as filtering out all its occurrences. -/
theorem erase_eq_filter_of_count_le_one (a : ProcDec) :
    ∀ l : List ProcDec, l.count a ≤ 1 → l.erase a = l.filter (fun d => !(d == a)) := by
  intro l
  induction l with
  | nil => intro _; rfl
  | cons b t ih =>
      intro hc
      by_cases hba : b = a
      · subst hba
        have hself : (b :: t).count b = t.count b + 1 := List.count_cons_self b t
        have ht : t.count b = 0 := by omega
        have hnot : b ∉ t := by
          simpa [List.count_eq_zero] using ht
        have hfil : t.filter (fun d => !(d == b)) = t := by
          apply List.filter_eq_self.mpr
          intro x hx
          have hxb : x ≠ b := fun h => hnot (h ▸ hx)
          simp [hxb]
        simp [List.erase_cons_head, List.filter_cons, hfil]
      · have hrw : (b :: t).count a = t.count a :=
          List.count_cons_of_ne (Ne.symm hba) t
        have hcount : t.count a ≤ 1 := by omega
        have hbeq : (b == a) = false := by
          simp [hba]
        simp [List.erase_cons, hbeq, List.filter_cons, ih hcount]

/-- C8 counterexample: with the registration order
`[label_proc, label_proc, user 0]` the rearranged chain is
`[label_proc, user 0, label_proc]` — one occurrence of the
label-propagation decorator ends up innermost, wrapped by a user
decorator, so the special decorators do not occupy the outermost
positions. -/
theorem rearrange_duplicate_label_counterexample :
    rearrangeProcDecorator
        [.label_proc_decorator, .label_proc_decorator, .user 0] =
      [.label_proc_decorator, .user 0, .label_proc_decorator] ∧
    ¬ specialsOutermost (rearrangeProcDecorator
        [.label_proc_decorator, .label_proc_decorator, .user 0]) := by
  constructor
  · rfl
  · decide

/-- C8 (amended): provided the label-propagation and skip-filtering
decorators are each registered at most once, after rearrangement the chain
is all other registered proc-decorators in their registration order
(inner-to-outer), followed by the label-propagation decorator (when
registered) and then the skip-filtering decorator (when registered) in the
outermost positions. -/
theorem rearrange_specials_outermost (l : List ProcDec)
    (h1 : l.count .label_proc_decorator ≤ 1)
    (h2 : l.count .skip_data_decorator ≤ 1) :
    rearrangeProcDecorator l =
      l.filter (fun d =>
          !(d == ProcDec.label_proc_decorator) && !(d == ProcDec.skip_data_decorator))
        ++ (if ProcDec.label_proc_decorator ∈ l then [ProcDec.label_proc_decorator] else [])
        ++ (if ProcDec.skip_data_decorator ∈ l then [ProcDec.skip_data_decorator] else []) := by
  by_cases hl : ProcDec.label_proc_decorator ∈ l
  · by_cases hs : ProcDec.skip_data_decorator ∈ l
    · have hsl : ProcDec.skip_data_decorator ∈ l.erase ProcDec.label_proc_decorator := by
        rw [List.mem_erase_of_ne (by decide)]
        exact hs
      have hc2 : (l.erase ProcDec.label_proc_decorator).count ProcDec.skip_data_decorator ≤ 1 := by
        rw [List.count_erase_of_ne (by decide)]
        exact h2
      have hrw1 := erase_eq_filter_of_count_le_one ProcDec.label_proc_decorator l h1
      have hrw2 := erase_eq_filter_of_count_le_one ProcDec.skip_data_decorator
        (l.erase ProcDec.label_proc_decorator) hc2
      have hfil : (l.erase ProcDec.label_proc_decorator).filter
          (fun d => !(d == ProcDec.skip_data_decorator)) =
            l.filter (fun d =>
              !(d == ProcDec.label_proc_decorator) && !(d == ProcDec.skip_data_decorator)) := by
        rw [hrw1, List.filter_filter]
        apply List.filter_congr
        intro x _
        cases x <;> rfl
      calc rearrangeProcDecorator l
          = (l.erase ProcDec.label_proc_decorator
              ++ [ProcDec.label_proc_decorator]).erase ProcDec.skip_data_decorator
              ++ [ProcDec.skip_data_decorator] := by
            simp [rearrangeProcDecorator, setTopDecorator, hl, hs]
        _ = ((l.erase ProcDec.label_proc_decorator).erase ProcDec.skip_data_decorator
              ++ [ProcDec.label_proc_decorator]) ++ [ProcDec.skip_data_decorator] := by
            rw [List.erase_append_left _ hsl]
        _ = (l.filter (fun d =>
              !(d == ProcDec.label_proc_decorator) && !(d == ProcDec.skip_data_decorator))
              ++ [ProcDec.label_proc_decorator]) ++ [ProcDec.skip_data_decorator] := by
            rw [hrw2, hfil]
        _ = _ := by simp [hl, hs]
    · have hfil : l.filter (fun d =>
          !(d == ProcDec.label_proc_decorator) && !(d == ProcDec.skip_data_decorator)) =
            l.filter (fun d => !(d == ProcDec.label_proc_decorator)) := by
        apply List.filter_congr
        intro x hx
        have hxs : x ≠ ProcDec.skip_data_decorator := fun h => hs (h ▸ hx)
        simp [hxs]
      have hrw1 := erase_eq_filter_of_count_le_one ProcDec.label_proc_decorator l h1
      simp [rearrangeProcDecorator, setTopDecorator, hl, hs, hrw1, hfil]
  · by_cases hs : ProcDec.skip_data_decorator ∈ l
    · have hfil : l.filter (fun d =>
          !(d == ProcDec.label_proc_decorator) && !(d == ProcDec.skip_data_decorator)) =
            l.filter (fun d => !(d == ProcDec.skip_data_decorator)) := by
        apply List.filter_congr
        intro x hx
        have hxl : x ≠ ProcDec.label_proc_decorator := fun h => hl (h ▸ hx)
        simp [hxl]
      have hrw2 := erase_eq_filter_of_count_le_one ProcDec.skip_data_decorator l h2
      simp [rearrangeProcDecorator, setTopDecorator, hl, hs, hrw2, hfil]
    · have hfil : l.filter (fun d =>
          !(d == ProcDec.label_proc_decorator) && !(d == ProcDec.skip_data_decorator)) = l := by
        apply List.filter_eq_self.mpr
        intro x hx
        have hxl : x ≠ ProcDec.label_proc_decorator := fun h => hl (h ▸ hx)
        have hxs : x ≠ ProcDec.skip_data_decorator := fun h => hs (h ▸ hx)
        simp [hxl, hxs]
      simp [rearrangeProcDecorator, setTopDecorator, hl, hs, hfil]

/-- C8 witness: registering `[user 0, label_proc, user 1, skip_data]`
rearranges to `[user 0, user 1, label_proc, skip_data]`. -/
theorem rearrange_specials_outermost_witness :
    rearrangeProcDecorator
        [.user 0, .label_proc_decorator, .user 1, .skip_data_decorator] =
      [ProcDec.user 0, ProcDec.user 1] ++ [ProcDec.label_proc_decorator] ++
        [ProcDec.skip_data_decorator] := by
  have h := rearrange_specials_outermost
    [.user 0, .label_proc_decorator, .user 1, .skip_data_decorator]
    (by decide) (by decide)
  simpa using h

/-! ## Retry and error conversion (`Node._error_decorator`)

`_error_decorator(func)` builds `error_wrapper = retry(stop=stop_after_attempt(5),
wait=wait_exponential_jitter(max=10), retry=retry_if_not_exception_type(StopIteration))(...)`
around `func`, and `final_wrapper` which calls `error_wrapper` and converts any
escaping exception into `NodeProcessingError(data, self.__name__, e, error_stack)`
returned as the ordinary result.  Tenacity semantics embedded here: attempts are
numbered from 1; after a failed attempt the call is retried unless the exception
is a `StopIteration` (re-raised at once) or 5 attempts have been made, in which
case a `RetryError` wrapping the last exception is raised (default
`reraise=False`).  The user function may behave differently on different
attempts, so it is embedded attempt-indexed. -/

/-- A readable stand-in for `traceback.format_exc()`: a formatted rendering
of the escaping exception. -/
def pyTraceback : PyExc → String
  | .stopIteration => "Traceback: StopIteration"
  | .runtimeError => "Traceback: RuntimeError"
  | .valueError => "Traceback: ValueError"
  | .attributeError => "Traceback: AttributeError"
  | .assertionError => "Traceback: AssertionError"
  | .keyError => "Traceback: KeyError"
  | .retryError e => "Traceback: RetryError of " ++ pyTraceback e
  | .other msg => "Traceback: " ++ msg

/-- `exceptions.NodeProcessingError(data, node_name, cause, trace)`: the
structured error value {original input, origin node name, underlying cause,
formatted trace} that flows downstream like ordinary data. -/
structure NodeProcessingError (α : Type) : Type where
  data : α
  nodeName : String
  cause : PyExc
  trace : String
  deriving DecidableEq

/-- The retry loop of tenacity as configured by `_error_decorator`: `fuel`
counts the attempts still allowed (started at 5 by `stop_after_attempt(5)`),
`attempt` is the current attempt number.  Returns the escaping result
together with the number of the attempt on which the loop exited. -/
def retryCallAux {α β : Type} (f : Nat → α → Except PyExc β) (x : α) :
    Nat → Nat → (Except PyExc β) × Nat
  | 0, attempt => (.error (.other "no attempts allowed"), attempt)
  | fuel + 1, attempt =>
      match f attempt x with
      | .ok b => (.ok b, attempt)
      | .error e =>
          if e = .stopIteration then (.error e, attempt)
          else if fuel = 0 then (.error (.retryError e), attempt)
          else retryCallAux f x fuel (attempt + 1)

/-- `error_wrapper`: the user function under the configured tenacity
`retry` decorator — up to 5 attempts, `StopIteration` never retried. -/
def retryCall {α β : Type} (f : Nat → α → Except PyExc β) (x : α) :
    (Except PyExc β) × Nat :=
  retryCallAux f x 5 1

/-- `final_wrapper`: calls `error_wrapper(data)`; any `BaseException` that
escapes is converted into a `NodeProcessingError` and *returned* as the
result, so no exception leaves the process stage.  Also reports the number
of attempts made. -/
def errorDecorator {α β : Type} (name : String) (f : Nat → α → Except PyExc β)
    (x : α) : (β ⊕ NodeProcessingError α) × Nat :=
  match retryCall f x with
  | (.ok b, a) => (.inl b, a)
  | (.error e, a) => (.inr ⟨x, name, e, pyTraceback e⟩, a)

/-- `wait_exponential_jitter(max=10)` with the library defaults
`initial=1`, `exp_base=2`, `jitter=1`: the wait before retrying after
attempt `a` is `max 0 (min (initial * exp_base^(a-1) + uniform(0, jitter)) max)`;
the random draw is embedded as the explicit parameter `j`. -/
def waitExponentialJitter (a : Nat) (j : ℚ) : ℚ :=
  max 0 (min ((2 : ℚ) ^ (a - 1) + j) 10)

/-- C3: a transform that raises a non-`StopIteration` exception on every
attempt is attempted exactly 5 times (`stop_after_attempt(5)`, i.e. 4
retries after the first call), each retry waiting an
exponential-backoff-plus-jitter interval capped at 10 time units; the stage
then returns — not raises — exactly one structured error value carrying the
original input, the node's name, the escaping cause (tenacity's
`RetryError` wrapping the final exception) and its formatted trace, and the
normal put stage routes that value to every destination accepting it
(all of them under the default predicate). -/
theorem retry_exhaustion_yields_error_value (name : String) (x : Nat)
    (f : Nat → Nat → Except PyExc Nat)
    (hf : ∀ a, ∃ e, f a x = .error e ∧ e ≠ PyExc.stopIteration) :
    ∃ e5, f 5 x = .error e5 ∧
      errorDecorator name f x =
        (.inr ⟨x, name, .retryError e5, pyTraceback (.retryError e5)⟩, 5) ∧
      (∀ dstNames : List String,
        putData "src"
          ((Sum.inr ⟨x, name, .retryError e5, pyTraceback (.retryError e5)⟩ :
            Nat ⊕ NodeProcessingError Nat))
          (dstNames.map fun nm => ⟨nm, defaultCriteria _⟩) = dstNames) ∧
      (∀ (a : Nat) (j : ℚ), waitExponentialJitter a j ≤ 10) := by
  obtain ⟨e1, h1, n1⟩ := hf 1
  obtain ⟨e2, h2, n2⟩ := hf 2
  obtain ⟨e3, h3, n3⟩ := hf 3
  obtain ⟨e4, h4, n4⟩ := hf 4
  obtain ⟨e5, h5, n5⟩ := hf 5
  refine ⟨e5, h5, ?_, ?_, ?_⟩
  · simp [errorDecorator, retryCall, retryCallAux, h1, h2, h3, h4, h5,
      n1, n2, n3, n4, n5]
  · intro dstNames
    exact putData_default _ _ dstNames
  · intro a j
    exact max_le (by norm_num) (min_le_right _ _)

/-- A transform that fails with the same exception on every attempt, used
to witness the retry theorem on a concrete input. -/
def alwaysFailing : Nat → Nat → Except PyExc Nat :=
  fun _ _ => .error (.other "boom")

/-- C3 witness: `alwaysFailing` yields the structured error value after
exactly 5 attempts. -/
theorem retry_exhaustion_yields_error_value_witness :
    ∃ e5, alwaysFailing 5 0 = .error e5 ∧
      errorDecorator "work" alwaysFailing 0 =
        (.inr ⟨0, "work", .retryError e5, pyTraceback (.retryError e5)⟩, 5) ∧
      (∀ dstNames : List String,
        putData "src"
          ((Sum.inr ⟨0, "work", .retryError e5, pyTraceback (.retryError e5)⟩ :
            Nat ⊕ NodeProcessingError Nat))
          (dstNames.map fun nm => ⟨nm, defaultCriteria _⟩) = dstNames) ∧
      (∀ (a : Nat) (j : ℚ), waitExponentialJitter a j ≤ 10) :=
  retry_exhaustion_yields_error_value "work" 0 alwaysFailing
    (fun _ => ⟨.other "boom", rfl, by decide⟩)

/-! ## Worker loop and stop tokens (`Node._func_wrapper`, `_get_data`, `_get_one_data`, `Node.end`)

The node's input queue holds payloads and stop tokens (`StopIteration()`
instances pushed by `end()`).  `_get_data` is a generator: `while
self.is_start: data = self.src_queue.get(); yield from
self._get_one_data(data)`, and `_get_one_data` is itself a generator that
does `raise StopIteration()` when the dequeued item is a stop token.
Under PEP 479 (Python ≥ 3.7) a `StopIteration` raised inside a generator
frame is replaced by `RuntimeError("generator raised StopIteration")`, and
the generator is finished; a later `next()` on the finished generator
raises a plain `StopIteration`.  The embedding below is the resulting
state machine for one worker with `is_data_iterable=False` and no
registered get-decorators; `end()` leaves `is_start` truthy (the code
comment: "Need to wait for drain, so not set is_start to False"). -/

/-- A queue item: a data payload or the stop token `StopIteration()`. -/
inductive Item : Type where
  | payload (n : Nat)
  | stopTok
  deriving DecidableEq

/-- The state visible to one worker: the input queue, whether the shared
`_get_data` generator is still alive, whether this worker's loop has ended,
and how many items reached the process stage. -/
structure WorkerSt : Type where
  queue : List Item
  genAlive : Bool
  terminated : Bool
  procCalls : Nat
  deriving DecidableEq

/-- The outcome of `next(self.get_data_generator)`. -/
inductive GetOut : Type where
  | got (n : Nat)
  | genStop
  | genRuntimeErr
  | blocked
  deriving DecidableEq

/-- `next(self.get_data_generator)`: a finished generator raises
`StopIteration`; otherwise the generator runs `self.src_queue.get()` —
blocking on an empty queue — and `yield from self._get_one_data(data)`:
a payload is yielded through, while a stop token makes `_get_one_data`
raise `StopIteration`, which PEP 479 converts to a `RuntimeError` that
finishes the generator. -/
def getDataNext (s : WorkerSt) : GetOut × WorkerSt :=
  if s.genAlive then
    match s.queue with
    | [] => (.blocked, s)
    | .payload n :: rest => (.got n, { s with queue := rest })
    | .stopTok :: rest =>
        (.genRuntimeErr, { s with queue := rest, genAlive := false })
  else
    (.genStop, s)

/-- What one iteration of the worker's `while` loop did. -/
inductive StepOut : Type where
  | forwarded (n : Nat)
  | isolatedError
  | broke
  | waited
  deriving DecidableEq

/-- One iteration of `_func_wrapper`'s loop for a single worker (the
in-flight guard `len(self.executing_data_queue) < self.worker_num` passes,
since the sole worker empties `executing_data_queue` in its `finally`):
fetch the next item; on a payload run `_proc_data` (embedded as the pure,
always-succeeding transform `f`) and `_put_data`; on the PEP 479
`RuntimeError` take the `except Exception` logging branch and continue; on
`StopIteration` take the `except StopIteration` branch and break. -/
def workerStep (f : Nat → Nat) (s : WorkerSt) : StepOut × WorkerSt :=
  match getDataNext s with
  | (.got n, s') => (.forwarded (f n), { s' with procCalls := s'.procCalls + 1 })
  | (.genRuntimeErr, s') => (.isolatedError, s')
  | (.genStop, s') => (.broke, { s' with terminated := true })
  | (.blocked, s') => (.waited, s')

/-- The worker's loop, fuelled: stops when the worker has broken out,
otherwise records the outcome of each iteration. -/
def workerRun (f : Nat → Nat) : Nat → WorkerSt → List StepOut × WorkerSt
  | 0, s => ([], s)
  | fuel + 1, s =>
      if s.terminated then ([], s)
      else
        let (o, s') := workerStep f s
        let (os, s'') := workerRun f fuel s'
        (o :: os, s'')

/-- The initial worker state over a given queue: generator alive, loop
running, no item processed yet. -/
def initSt (q : List Item) : WorkerSt :=
  ⟨q, true, false, 0⟩

/-- `Node.end()`: `for _ in range(self.worker_num):
self.src_queue.put(StopIteration())` — the FIFO queue after `end()` is the
pending payloads followed by exactly `worker_num` stop tokens. -/
def endEnqueue (pending : List Nat) (workerNum : Nat) : List Item :=
  pending.map .payload ++ List.replicate workerNum .stopTok

/-- Whether an iteration forwarded a value past the node boundary. -/
def StepOut.isForwarded : StepOut → Bool
  | .forwarded _ => true
  | _ => false

/-- Helper: unfolding one non-terminated loop iteration. -/
theorem workerRun_succ (f : Nat → Nat) (fuel : Nat) (s : WorkerSt)
    (h : s.terminated = false) :
    workerRun f (fuel + 1) s =
      ((workerStep f s).1 :: (workerRun f fuel (workerStep f s).2).1,
       (workerRun f fuel (workerStep f s).2).2) := by
  rw [workerRun]
  rw [if_neg (by simp [h])]

/-- Helper: one iteration on a payload at the head of the queue fetches
it, processes it and forwards the result. -/
theorem workerStep_payload (f : Nat → Nat) (a : Nat) (q : List Item) (k : Nat) :
    workerStep f ⟨.payload a :: q, true, false, k⟩ =
      (.forwarded (f a), ⟨q, true, false, k + 1⟩) := rfl

/-- Helper: one iteration on a stop token at the head of the queue takes
the PEP 479 `RuntimeError` path: isolated-error logging, generator
finished, loop not broken. -/
theorem workerStep_stop (f : Nat → Nat) (q : List Item) (k : Nat) :
    workerStep f ⟨.stopTok :: q, true, false, k⟩ =
      (.isolatedError, ⟨q, false, false, k⟩) := rfl

/-- Helper: one iteration with the generator finished raises
`StopIteration` from `next()` and breaks the loop. -/
theorem workerStep_dead (f : Nat → Nat) (q : List Item) (k : Nat) :
    workerStep f ⟨q, false, false, k⟩ = (.broke, ⟨q, false, true, k⟩) := rfl

/-- C4: evaluating the worker machine on a queue holding one stop token:
the dequeue of the stop token does NOT break the loop — PEP 479 turns the
`raise StopIteration()` inside the `_get_data` generator into a
`RuntimeError`, which the worker logs on the isolated-error path and keeps
looping; the break happens only on the next iteration, when `next()` on
the now-finished generator raises `StopIteration`.  The token is never
processed (zero `_proc_data` calls, hence never retried) and never
forwarded to a destination. -/
theorem stop_token_via_runtime_error_path :
    workerRun (fun n => n) 2 (initSt [.stopTok]) =
      ([.isolatedError, .broke], ⟨[], false, true, 0⟩) ∧
    (workerStep (fun n => n) (initSt [.stopTok])).1 = .isolatedError ∧
    (workerStep (fun n => n) (initSt [.stopTok])).1 ≠ .broke ∧
    (workerRun (fun n => n) 2 (initSt [.stopTok])).1.all
        (fun o => !(StepOut.isForwarded o)) = true ∧
    (workerRun (fun n => n) 2 (initSt [.stopTok])).2.procCalls = 0 := by
  refine ⟨by decide, by decide, by decide, by decide, by decide⟩

/-- Helper: the drain run — a queue of payloads followed by at least one
stop token is processed payload-by-payload in order, then the first stop
token ends the generator (logged isolated error) and the following
iteration breaks; the remaining stop tokens stay queued and the worker
ends terminated. -/
theorem workerRun_drain (f : Nat → Nat) :
    ∀ (l : List Nat) (k m : Nat),
      workerRun f (l.length + 2)
          ⟨l.map .payload ++ .stopTok :: List.replicate m .stopTok, true, false, k⟩ =
        (l.map (fun a => .forwarded (f a)) ++ [.isolatedError, .broke],
         ⟨List.replicate m .stopTok, false, true, k + l.length⟩) := by
  intro l
  induction l with
  | nil =>
      intro k m
      rw [show ([] : List Nat).length + 2 = 1 + 1 from rfl]
      rw [workerRun_succ f 1 _ rfl]
      simp only [List.map_nil, List.nil_append]
      rw [workerStep_stop]
      rw [workerRun_succ f 0 _ rfl]
      rw [workerStep_dead]
      simp [workerRun]
  | cons a t ih =>
      intro k m
      simp only [List.map_cons, List.length_cons, List.cons_append]
      rw [show t.length + 1 + 2 = (t.length + 2) + 1 from by omega]
      rw [workerRun_succ f (t.length + 2) _ rfl]
      rw [workerStep_payload]
      rw [ih (k + 1) m]
      rw [show k + 1 + t.length = k + (t.length + 1) from by omega]

/-- C7: `end()` on a node with `worker_num` workers enqueues exactly
`worker_num` stop tokens, all of them after the pending payloads (the
prefix of pending items contains no stop token), so queued items are
drained rather than cancelled: the worker run processes every pending
payload in order through the process and put stages before any stop token
is seen, and `end()`'s `gevent.joinall` returns with the worker
terminated. -/
theorem end_enqueues_stop_tokens_and_drains (pending : List Nat)
    (workerNum : Nat) (f : Nat → Nat) (h : 1 ≤ workerNum) :
    (endEnqueue pending workerNum).count .stopTok = workerNum ∧
    ((endEnqueue pending workerNum).take pending.length).count .stopTok = 0 ∧
    workerRun f (pending.length + 2) (initSt (endEnqueue pending workerNum)) =
      (pending.map (fun a => .forwarded (f a)) ++ [.isolatedError, .broke],
       ⟨List.replicate (workerNum - 1) .stopTok, false, true, pending.length⟩) ∧
    (workerRun f (pending.length + 2)
      (initSt (endEnqueue pending workerNum))).2.terminated = true := by
  obtain ⟨m, rfl⟩ : ∃ m, workerNum = m + 1 :=
    ⟨workerNum - 1, by omega⟩
  have hq : endEnqueue pending (m + 1) =
      pending.map .payload ++ .stopTok :: List.replicate m .stopTok := by
    simp [endEnqueue, List.replicate_succ]
  have hrun := workerRun_drain f pending 0 m
  refine ⟨?_, ?_, ?_, ?_⟩
  · have hcp : (pending.map Item.payload).count Item.stopTok = 0 := by
      rw [List.count_eq_zero]
      intro hmem
      obtain ⟨x, _, hx⟩ := List.mem_map.mp hmem
      exact Item.noConfusion hx
    simp [endEnqueue, List.count_append, hcp, List.count_replicate]
  · have htake : (endEnqueue pending (m + 1)).take pending.length =
        pending.map .payload := by
      have hlen : (pending.map Item.payload).length = pending.length :=
        List.length_map _ _
      rw [endEnqueue, List.take_left' hlen]
    rw [htake, List.count_eq_zero]
    intro hmem
    obtain ⟨x, _, hx⟩ := List.mem_map.mp hmem
    exact Item.noConfusion hx
  · rw [hq]
    simpa [initSt] using hrun
  · rw [hq]
    simp only [initSt]
    simpa using congrArg (fun p => p.2.terminated) hrun

/-- C7 witness: two pending payloads, two workers, transform `* 10`. -/
theorem end_enqueues_stop_tokens_and_drains_witness :
    (endEnqueue [1, 2] 2).count .stopTok = 2 ∧
    ((endEnqueue [1, 2] 2).take 2).count .stopTok = 0 ∧
    workerRun (fun a => a * 10) 4 (initSt (endEnqueue [1, 2] 2)) =
      ([.forwarded 10, .forwarded 20, .isolatedError, .broke],
       ⟨[Item.stopTok], false, true, 2⟩) ∧
    (workerRun (fun a => a * 10) 4 (initSt (endEnqueue [1, 2] 2))).2.terminated = true := by
  have h := end_enqueues_stop_tokens_and_drains [1, 2] 2 (fun a => a * 10) (by decide)
  simpa using h

/-! ## Graph topological sort (`Graph.topological_sort`)

`Graph.start` calls `self.topological_sort(self.all_nodes)` where
`all_nodes` is the NodeGroup's dict mapping descriptive name (a string) to
node.  The first loop of `topological_sort` is

    for desc, node in all_nodes:

Iterating a dict yields its *keys* (the `.items()` call is missing), so
each iteration tuple-unpacks one key string into `(desc, node)`:

* a key whose length is not 2 raises
  `ValueError: not enough/too many values to unpack`;
* a key of length exactly 2 unpacks into two characters, and the loop body
  then evaluates `node.dst_nodes` on the character `node`, raising
  `AttributeError` (`str` has no attribute `dst_nodes`).

So the loop raises on the first key of any nonempty dict, and the Kahn
queue phase and the cycle check `len(sorted_nodes) != len(all_nodes)` are
reachable only for the empty dict, where the queue seeds empty and the
result is the empty dict. -/

/-- A graph node as `topological_sort` would need it: the keys of its
`dst_nodes` dict. -/
structure GNode : Type where
  dst_nodes : List String
  deriving DecidableEq

/-- Python tuple-unpacking of a string into exactly two targets:
`desc, node = key` succeeds only for strings of length 2 and raises
`ValueError` otherwise. -/
def pyUnpack2 (s : String) : Except PyExc (Char × Char) :=
  match s.toList with
  | [a, b] => .ok (a, b)
  | _ => .error .valueError

/-- Evaluating `node.dst_nodes` when `node` is the character produced by
unpacking a key string: `str` has no attribute `dst_nodes`, so Python
raises `AttributeError`. -/
def charGetDstNodes (_ : Char) : Except PyExc (List String) :=
  .error .attributeError

/-- The first loop of `topological_sort` — `for desc, node in all_nodes:`
over the dict's keys: unpack each key, then start
`for neighbor in node.dst_nodes` by evaluating `node.dst_nodes`. -/
def tsDescriptionLoop : List String → Except PyExc Unit
  | [] => .ok ()
  | k :: ks =>
      match pyUnpack2 k with
      | .error e => .error e
      | .ok (_, node) =>
          match charGetDstNodes node with
          | .error e => .error e
          | .ok _ => tsDescriptionLoop ks

/-- `Graph.topological_sort(all_nodes)`: run the description loop over the
dict's keys; when it completes (only possible for the empty dict) the Kahn
queue phase runs zero iterations, `sorted_nodes` is the empty dict, and
the cycle check `len(sorted_nodes) != len(all_nodes)` raises
`ValueError("Graph has at least one cycle")` on a shortfall. -/
def topologicalSort (allNodes : List (String × GNode)) :
    Except PyExc (List (String × GNode)) :=
  match tsDescriptionLoop (allNodes.map Prod.fst) with
  | .error e => .error e
  | .ok _ =>
      let sortedNodes : List (String × GNode) := []
      if sortedNodes.length = allNodes.length then .ok sortedNodes
      else .error .valueError

/-- Helper: the description loop raises on the first key of any nonempty
dict: `ValueError` when the key cannot unpack into two characters,
`AttributeError` otherwise. -/
theorem tsDescriptionLoop_nonempty (k : String) (ks : List String) :
    tsDescriptionLoop (k :: ks) =
      (if k.data.length = 2 then .error .attributeError else .error .valueError) := by
  rcases hk : k.data with _ | ⟨a, rest⟩
  · simp [tsDescriptionLoop, pyUnpack2, String.toList, hk]
  · rcases rest with _ | ⟨b, rest2⟩
    · simp [tsDescriptionLoop, pyUnpack2, String.toList, hk]
    · rcases rest2 with _ | ⟨c, rest3⟩
      · simp [tsDescriptionLoop, pyUnpack2, charGetDstNodes, String.toList, hk]
      · simp [tsDescriptionLoop, pyUnpack2, String.toList, hk]

/-- C2: evaluating `topological_sort` on concrete wirings.  The acyclic
two-node wiring `{"a": A → "b", "b": B}` does not return a 2-element order:
it raises `ValueError` from tuple-unpacking the 1-character key `"a"`
(the loop iterates the dict's keys, not its items); with 2-character names
the unpack succeeds but `node.dst_nodes` on a character raises
`AttributeError`.  In general every nonempty node mapping — acyclic or
cyclic — raises before Kahn's algorithm or the cycle check is reached;
only the empty mapping returns an order. -/
theorem topological_sort_crashes_on_nonempty :
    topologicalSort [("a", ⟨["b"]⟩), ("b", ⟨[]⟩)] = .error .valueError ∧
    topologicalSort [("ab", ⟨["cd"]⟩), ("cd", ⟨[]⟩)] = .error .attributeError ∧
    (∀ (k : String) (n : GNode) (rest : List (String × GNode)),
      ∃ e, topologicalSort ((k, n) :: rest) = .error e) ∧
    topologicalSort [] = .ok [] := by
  refine ⟨rfl, rfl, ?_, rfl⟩
  intro k n rest
  simp only [topologicalSort, List.map_cons]
  rw [tsDescriptionLoop_nonempty]
  by_cases h : k.data.length = 2
  · exact ⟨.attributeError, by simp [h]⟩
  · exact ⟨.valueError, by rw [if_neg h]⟩

/-! ## Scatter/gather (`IterablePipeline`, `ProcessingTask`)

The decomposed iterable input is a concrete sequence of naturals; Python
dicts (`over_results`, `processing_tasks`) are insertion-ordered
association lists.  `ProcessingTask.__init__` builds an exhaustion-probe
iterator with `itertools.tee(data, 1)[0]` and immediately advances it once
with an *unguarded* `next(...)` — which raises `StopIteration` when the
iterable is empty.  `get_label` advances the probe (setting
`is_generator_exhausted` on `StopIteration`) and in its `finally` block
assigns the next slot index, pre-registers the slot as `None`, and returns
`(task_label, index)`. -/

/-- Update (or append) one key of an insertion-ordered Python dict. -/
def assocSet {κ ν : Type} [DecidableEq κ] : List (κ × ν) → κ → ν → List (κ × ν)
  | [], k, v => [(k, v)]
  | (k', v') :: rest, k, v =>
      if k' = k then (k, v) :: rest else (k', v') :: assocSet rest k v

/-- Look up one key of an insertion-ordered Python dict. -/
def assocGet {κ ν : Type} [DecidableEq κ] : List (κ × ν) → κ → Option ν
  | [], _ => none
  | (k', v') :: rest, k => if k' = k then some v' else assocGet rest k

/-- Modelled from the spec: `label.generate_label` (module not under
`src/`) derives a correlation token deterministically from a value's
content, so repeated derivation for the same value yields the same token;
embedded as the value's content itself. -/
def generateLabel (d : List Nat) : List Nat := d

/-- `IterablePipeline.ProcessingTask`: slot counter `index`, the sparse
result dict `over_results` (slot → recorded result, `none` until filled),
the original iterable, the number of elements the exhaustion probe has not
yet consumed, the exhaustion flag, and the task's correlation token. -/
structure ProcessingTask : Type where
  index : Nat
  over_results : List (Nat × Option Nat)
  original_data : List Nat
  probeRemaining : Nat
  is_generator_exhausted : Bool
  task_label : List Nat
  deriving DecidableEq

/-- `ProcessingTask.__init__(data)`: asserts iterability, builds the tee'd
probe and advances it once with an unguarded `next` — `StopIteration`
escapes for an empty iterable; otherwise one element is consumed and the
task starts with slot counter 0, empty result dict, exhaustion flag
unset. -/
def ProcessingTask.init (data : List Nat) : Except PyExc ProcessingTask :=
  match data with
  | [] => .error .stopIteration
  | _ :: rest => .ok ⟨0, [], data, rest.length, false, generateLabel data⟩

/-- `ProcessingTask.get_label(data)`: advance the probe (`try next(...)
except StopIteration: is_generator_exhausted = True`), then in `finally`
take the current slot index, bump the counter, pre-register the slot as
`None`, and return `(task_label, index)`. -/
def ProcessingTask.get_label (t : ProcessingTask) :
    ProcessingTask × (List Nat × Nat) :=
  let t1 :=
    match t.probeRemaining with
    | 0 => { t with is_generator_exhausted := true }
    | m + 1 => { t with probeRemaining := m }
  ({ t1 with
      index := t1.index + 1,
      over_results := assocSet t1.over_results t1.index none },
   (t1.task_label, t1.index))

/-- An element travelling the pipeline wrapped by the Label subsystem:
the (transformed) content and its `(task token, slot index)` label. -/
structure LabelDataE : Type where
  data : Nat
  label : List Nat × Nat
  deriving DecidableEq

/-- What the tail put-decorator forwards downstream when a task completes:
`LabelData((task.original_data, over_results), label[0])` where
`over_results` is the value the walrus assignment in the completion check
bound — the list `[v is not None for v in task.over_results.values()]`. -/
structure AggregateOut : Type where
  original : List Nat
  flags : List Bool
  token : List Nat
  deriving DecidableEq

/-- `IterablePipeline._iterable_get_data_decorator`'s wrapper: construct
`ProcessingTask(iter_data)` (this can raise), only then register it in
`processing_tasks`, and return the flattened elements the head node's
`_get_one_data` yields for the iterable. -/
def iterableGetWrapper (reg : List (List Nat × ProcessingTask))
    (iter_data : List Nat) :
    Except PyExc (List (List Nat × ProcessingTask) × List Nat) :=
  match ProcessingTask.init iter_data with
  | .error e => .error e
  | .ok t => .ok (assocSet reg t.task_label t, iter_data)

/-- `IterablePipeline._iterable_put_data_decorator`'s wrapper: obtain the
`(token, slot)` label of the arriving `LabelData` (via
`get_data_func_label`, modelled from the spec as returning the label the
Label subsystem attached on ingestion), record the content into the owning
task's `over_results` at the slot, and — if the source is exhausted and
the walrus-bound list `[v is not None for v in over_results.values()]` is
all true — forward exactly one `LabelData((original_data, over_results),
token)`; otherwise forward nothing. -/
def iterablePutWrapper (reg : List (List Nat × ProcessingTask))
    (ld : LabelDataE) :
    Except PyExc (List (List Nat × ProcessingTask) × List AggregateOut) :=
  match assocGet reg ld.label.1 with
  | none => .error .keyError
  | some task =>
      let task1 :=
        { task with
            over_results := assocSet task.over_results ld.label.2 (some ld.data) }
      let walrus := task1.over_results.map (fun p => p.2.isSome)
      let reg1 := assocSet reg ld.label.1 task1
      if task1.is_generator_exhausted && walrus.all (fun b => b) then
        .ok (reg1, [⟨task1.original_data, walrus, ld.label.1⟩])
      else
        .ok (reg1, [])

/-- One element's trip through the scatter/gather pipeline with a single
worker: draw the element (the label function looks the task up by the
token of the original iterable and calls `task.get_label`), apply the
per-element transform `f`, and run the tail put-decorator on the labelled
result. -/
def sgStep (f : Nat → Nat) (tok : List Nat)
    (reg : List (List Nat × ProcessingTask)) (e : Nat) :
    Except PyExc (List (List Nat × ProcessingTask) × List AggregateOut) :=
  match assocGet reg tok with
  | none => .error .keyError
  | some task =>
      let drawn := task.get_label
      iterablePutWrapper (assocSet reg tok drawn.1) ⟨f e, drawn.2⟩

/-- Run the scatter/gather steps over the flattened elements in order,
collecting everything forwarded past the tail decorator. -/
def sgRun (f : Nat → Nat) (tok : List Nat) :
    List (List Nat × ProcessingTask) → List Nat →
    Except PyExc (List (List Nat × ProcessingTask) × List AggregateOut)
  | reg, [] => .ok (reg, [])
  | reg, e :: es =>
      match sgStep f tok reg e with
      | .error err => .error err
      | .ok (reg1, outs) =>
          match sgRun f tok reg1 es with
          | .error err => .error err
          | .ok (reg2, outs2) => .ok (reg2, outs ++ outs2)

/-- The whole pipeline on one iterable input: head-node get-decorator
(task creation and registration, flattening), then every element drawn,
transformed and recorded at the tail put-decorator; returns everything
forwarded past the tail decorator. -/
def runScatterGather (f : Nat → Nat) (input : List Nat) :
    Except PyExc (List AggregateOut) :=
  match iterableGetWrapper [] input with
  | .error e => .error e
  | .ok (reg, elems) =>
      match sgRun f (generateLabel input) reg elems with
      | .error e => .error e
      | .ok (_, outs) => .ok outs

/-- C1: evaluating the scatter/gather pipeline on the 3-element sequence
`(1, 2, 3)` with per-element transform `n + 1`.  Exactly one aggregate is
forwarded, and only at the final recording (the first two recordings
forward nothing) — but the aggregate pairs the original input with
`[True, True, True]`, the walrus-captured completion-flag list from the
walrus-assignment inside the `all` completion check, not with the per-slot
results `[2, 3, 4]` the claim (and the spec's reassembly description)
expects. -/
theorem iterable_aggregate_emits_flag_list :
    runScatterGather (fun n => n + 1) [1, 2, 3] =
      .ok [⟨[1, 2, 3], [true, true, true], [1, 2, 3]⟩] ∧
    [1, 2, 3].map (fun n => n + 1) = [2, 3, 4] ∧
    iterableGetWrapper [] [1, 2, 3] =
      .ok ([([1, 2, 3], ⟨0, [], [1, 2, 3], 2, false, [1, 2, 3]⟩)], [1, 2, 3]) ∧
    sgRun (fun n => n + 1) [1, 2, 3]
        [([1, 2, 3], ⟨0, [], [1, 2, 3], 2, false, [1, 2, 3]⟩)] [1, 2] =
      .ok ([([1, 2, 3],
              ⟨2, [(0, some 2), (1, some 3)], [1, 2, 3], 0, false, [1, 2, 3]⟩)],
           []) := by
  refine ⟨rfl, rfl, rfl, rfl⟩

/-- C10: an empty iterable makes `ProcessingTask.__init__` raise
`StopIteration` from the unguarded `next` on the exhaustion probe, so the
head node's get-decorator fails before the task is registered (no registry
is ever produced) and the whole pipeline on the empty input yields an
error and no aggregate output, for every transform. -/
theorem empty_iterable_stopiteration :
    ProcessingTask.init [] = .error .stopIteration ∧
    (∀ reg, iterableGetWrapper reg [] = .error .stopIteration) ∧
    (∀ f, runScatterGather f [] = .error .stopIteration) := by
  refine ⟨rfl, fun reg => rfl, fun f => rfl⟩

end AsyncDfd
